import Mathlib

/-!
Shallow embedding of the hack-or-snooze client data layer
(src/hackOrSnooze/js/models.js): the Story, StoryList and User classes
and their CRUD / favorite operations.

Asynchronous HTTP requests are modelled by passing the awaited server
response in explicitly as an argument of type Except ApiError _ :
a JavaScript method that awaits one axios call and then mutates local
state becomes a Lean function from the pre-state and the response to the
post-state, paired with the method's own result (Except models a
fulfilled or rejected promise).  A rejection that occurs at the await
leaves every piece of local state written before the await in place and
every piece after it untouched, exactly as in the JavaScript semantics.
-/

namespace HackOrSnooze

/-- A story record as it appears in API gateway response bodies:
the six fields destructured by the Story constructor. -/
structure StoryRecord where
  storyId : String
  title : String
  author : String
  url : String
  username : String
  createdAt : String
deriving DecidableEq

/-- A Story instance (models.js lines 9-30): the constructor copies the
six record fields verbatim. -/
structure Story where
  storyId : String
  title : String
  author : String
  url : String
  username : String
  createdAt : String
deriving DecidableEq

/-- The Story constructor: destructures a record and stores each field
verbatim (models.js lines 15-22). -/
def Story.ofRecord (r : StoryRecord) : Story :=
  { storyId := r.storyId, title := r.title, author := r.author,
    url := r.url, username := r.username, createdAt := r.createdAt }

/-- Models the platform WHATWG URL constructor's scheme step as used by
getHostName: the scheme is everything before the first colon, and the
colon must be followed by the literal slash-slash of an authority.
Returns none when the string has no colon, or when something other than
slash-slash follows it. -/
def splitSchemeRest : List Char → Option (List Char × List Char)
  | [] => none
  | c :: cs =>
    if c == ':' then
      match cs with
      | '/' :: '/' :: rest => some ([], rest)
      | _ => none
    else
      match splitSchemeRest cs with
      | some (scheme, rest) => some (c :: scheme, rest)
      | none => none

/-- The characters after the last at-sign, modelling how the URL
authority parser drops the optional userinfo part. -/
def afterLastAt (cs : List Char) : List Char :=
  cs.foldl (fun acc c => if c == '@' then [] else acc ++ [c]) []

/-- Characters the URL standard allows inside a scheme. -/
def isSchemeChar (c : Char) : Bool :=
  c.isAlpha || c.isDigit || c == '+' || c == '-' || c == '.'

/-- Models the platform URL constructor followed by reading .host, for
absolute URLs of the shape scheme://[userinfo@]host[:port][/...]:
none models the TypeError the constructor throws on input that is not a
valid absolute URL (no scheme-colon-slash-slash, a scheme that is empty,
does not start with a letter or holds a forbidden character, or an empty
host); some h yields the host component (host together with any port),
which is what the .host property of a URL object exposes. -/
def parseUrlHost (url : String) : Option String :=
  match splitSchemeRest url.data with
  | none => none
  | some (scheme, rest) =>
    match scheme with
    | [] => none
    | c :: cs =>
      if !(c.isAlpha && (c :: cs).all isSchemeChar) then none
      else
        let authority := rest.takeWhile fun ch => ch != '/' && ch != '?' && ch != '#'
        let host := afterLastAt authority
        if host.isEmpty then none else some (String.mk host)

/-- The failure mode of Story.getHostName: the spec's MalformedUrlError,
raised when the stored url is not a valid absolute URL. -/
inductive UrlError where
  | malformedUrl
deriving DecidableEq

/-- Story.getHostName (models.js lines 26-29): parses this.url with the
URL constructor and returns the host; a parse failure is the thrown
(propagating) MalformedUrlError, modelled by the error branch. -/
def Story.getHostName (s : Story) : Except UrlError String :=
  match parseUrlHost s.url with
  | some host => Except.ok host
  | none => Except.error UrlError.malformedUrl

/-- Failure modes of an API gateway request (spec section 7 taxonomy:
transport failure, rejected credentials, rejected validation, missing
resource).  The operations below are uniform in which failure occurred. -/
inductive ApiError where
  | network
  | auth
  | validation
  | notFound
deriving DecidableEq

/-- A User instance (models.js lines 125-149). -/
structure User where
  username : String
  name : String
  createdAt : String
  favorites : List Story
  ownStories : List Story
  loginToken : String
deriving DecidableEq

/-- Input of the User constructor.  The favorites and ownStories fields
carry Option: none models an absent field, which the JavaScript default
parameter value replaces with the empty array. -/
structure UserData where
  username : String
  name : String
  createdAt : String
  favorites : Option (List StoryRecord)
  ownStories : Option (List StoryRecord)
deriving DecidableEq

/-- The User constructor (models.js lines 131-149): copies the identity
fields, defaults an absent favorites/ownStories to the empty array, wraps
each element record as a Story instance, and stores the token argument as
loginToken. -/
def User.ofData (d : UserData) (token : String) : User :=
  { username := d.username, name := d.name, createdAt := d.createdAt,
    favorites := (d.favorites.getD []).map Story.ofRecord,
    ownStories := (d.ownStories.getD []).map Story.ofRecord,
    loginToken := token }

/-- A StoryList instance (models.js lines 37-40). -/
structure StoryList where
  stories : List Story
deriving DecidableEq

/-- The {title, author, url} object passed to addStory. -/
structure NewStoryData where
  title : String
  author : String
  url : String
deriving DecidableEq

/-- StoryList.addStory (models.js lines 76-96).  resp is the awaited
result of the authenticated POST /stories request, which carries
user.loginToken and the data fields; the response body's story record is
its success value.  The request precedes every local write, so a
rejection returns the error with this StoryList and user unchanged; on
success the new Story is built from the response, unshifted onto
this.stories and onto user.ownStories, and returned. -/
def StoryList.addStory (sl : StoryList) (user : User) (data : NewStoryData)
    (resp : Except ApiError StoryRecord) :
    Except ApiError Story × StoryList × User :=
  match resp with
  | Except.error e => (Except.error e, sl, user)
  | Except.ok rec =>
    let story := Story.ofRecord rec
    (Except.ok story, ⟨story :: sl.stories⟩,
     { user with ownStories := story :: user.ownStories })

/-- StoryList.removeStory (models.js lines 100-117).  resp is the awaited
result of the authenticated DELETE /stories/storyId request.  The request
precedes every local write, so a rejection returns the error with this
StoryList and user unchanged; on success the story with the given id is
filtered out of this.stories, user.ownStories and user.favorites. -/
def StoryList.removeStory (sl : StoryList) (user : User) (storyId : String)
    (resp : Except ApiError Unit) :
    Except ApiError Unit × StoryList × User :=
  match resp with
  | Except.error e => (Except.error e, sl, user)
  | Except.ok _ =>
    (Except.ok (),
     ⟨sl.stories.filter fun story => story.storyId != storyId⟩,
     { user with
        ownStories := user.ownStories.filter fun s => s.storyId != storyId,
        favorites := user.favorites.filter fun s => s.storyId != storyId })

/-- The local (pre-await) half of User.addFavorite:
this.favorites.push(story). -/
def User.addFavoriteLocal (u : User) (story : Story) : User :=
  { u with favorites := u.favorites ++ [story] }

/-- User.addFavorite (models.js lines 240-245): pushes the story onto
this.favorites and then awaits the add-favorite request; resp is that
awaited result.  Since the push precedes the request, the optimistically
mutated user is the post-state on success and on rejection alike, and a
rejection surfaces as the error component. -/
def User.addFavorite (u : User) (story : Story) (resp : Except ApiError Unit) :
    Except ApiError Unit × User :=
  let u := u.addFavoriteLocal story
  match resp with
  | Except.error e => (Except.error e, u)
  | Except.ok _ => (Except.ok (), u)

/-- The local (pre-await) half of User.removeFavorite:
this.favorites = this.favorites.filter(s => s.storyId !== story.storyId). -/
def User.removeFavoriteLocal (u : User) (story : Story) : User :=
  { u with favorites := u.favorites.filter fun s => s.storyId != story.storyId }

/-- User.removeFavorite (models.js lines 252-257): filters the story out
of this.favorites by storyId and then awaits the remove-favorite request;
resp is that awaited result, with the same optimistic no-rollback shape
as addFavorite. -/
def User.removeFavorite (u : User) (story : Story) (resp : Except ApiError Unit) :
    Except ApiError Unit × User :=
  let u := u.removeFavoriteLocal story
  match resp with
  | Except.error e => (Except.error e, u)
  | Except.ok _ => (Except.ok (), u)

/-- User.isFavorite (models.js lines 284-287): whether some entry of
this.favorites has the story's storyId. -/
def User.isFavorite (u : User) (story : Story) : Bool :=
  u.favorites.any fun s => s.storyId == story.storyId

/-- The user object in the GET /users/username response body; the API's
field for the user's own stories is named stories. -/
structure UserRecordWire where
  username : String
  name : String
  createdAt : String
  favorites : List StoryRecord
  stories : List StoryRecord
deriving DecidableEq

/-- User.loginViaStoredCredentials (models.js lines 210-234): resp is the
awaited result of the GET /users/username profile fetch.  The whole body
sits in a try/catch that returns null on any failure, modelled by none;
on success a User is rebuilt from the fetched profile with the token that
was passed in. -/
def User.loginViaStoredCredentials (token username : String)
    (resp : Except ApiError UserRecordWire) : Option User :=
  match resp with
  | Except.ok u =>
    some (User.ofData
      { username := u.username, name := u.name, createdAt := u.createdAt,
        favorites := some u.favorites, ownStories := some u.stories } token)
  | Except.error _ => none

/-- The storyId column of a story collection; the User invariant of the
spec is that this list holds no duplicates. -/
def storyIds (l : List Story) : List String :=
  l.map Story.storyId

/-- Concrete story used by witnesses and the C1 counterexample. -/
def sampleStory : Story :=
  { storyId := "s1", title := "first", author := "ann",
    url := "https://example.com/a", username := "alice", createdAt := "2020" }

/-- A second concrete story, with a storyId distinct from sampleStory. -/
def sampleStory2 : Story :=
  { storyId := "s2", title := "second", author := "bob",
    url := "https://example.org/b", username := "bob", createdAt := "2021" }

/-- Concrete user whose favorites already hold sampleStory. -/
def sampleUser : User :=
  { username := "alice", name := "Alice", createdAt := "2020",
    favorites := [sampleStory], ownStories := [sampleStory], loginToken := "tok" }

/-- Concrete story list used by witnesses. -/
def sampleStoryList : StoryList :=
  ⟨[sampleStory, sampleStory2]⟩

/-- Concrete create-request payload used by witnesses. -/
def sampleData : NewStoryData :=
  { title := "third", author := "cal", url := "https://example.net/c" }

/-- Concrete server story record with a storyId fresh for sampleUser. -/
def sampleRecord : StoryRecord :=
  { storyId := "s3", title := "third", author := "cal",
    url := "https://example.net/c", username := "alice", createdAt := "2022" }

/-- Appending one fresh element to a duplicate-free list keeps it
duplicate-free. -/
theorem nodup_append_singleton {α : Type} (l : List α) (a : α)
    (h : l.Nodup) (ha : a ∉ l) : (l ++ [a]).Nodup := by
  refine List.Nodup.append h (List.nodup_singleton a) ?_
  intro b hb hb2
  simp only [List.mem_singleton] at hb2
  subst hb2
  exact ha hb

/-- Filtering a story collection preserves uniqueness of its storyIds. -/
theorem storyIds_filter_nodup (l : List Story) (p : Story → Bool)
    (h : (storyIds l).Nodup) : (storyIds (l.filter p)).Nodup :=
  h.sublist (List.Sublist.map Story.storyId (List.filter_sublist l))

/-- C1 counterexample: sampleUser's favorites satisfy the
no-duplicate-storyId invariant, yet addFavorite of sampleStory — already
a favorite — pushes unconditionally and leaves favorites with two
entries whose storyId is "s1", so the claim's "after addFavorite(story)
the favorites collection still contains at most one entry with each
storyId" fails for a story already present. -/
theorem c1_addFavorite_duplicate_counterexample :
    (storyIds sampleUser.favorites).Nodup ∧
    ¬ (storyIds (sampleUser.addFavorite sampleStory (Except.ok ())).2.favorites).Nodup := by
  decide

/-- C1 (amended): the operations of the layer preserve the
no-duplicate-storyId invariant on the User collections provided any
inserted entry carries a storyId not already present there: addFavorite
of a story whose storyId is fresh in favorites keeps favorites
duplicate-free, removeFavorite and removeStory keep favorites and
ownStories duplicate-free unconditionally, and addStory whose response
record carries a storyId fresh in ownStories keeps ownStories
duplicate-free. -/
theorem c1_ops_preserve_storyId_nodup (sl : StoryList) (user : User)
    (story : Story) (data : NewStoryData) (rec : StoryRecord) (sid : String)
    (r r2 : Except ApiError Unit)
    (hfav : (storyIds user.favorites).Nodup)
    (hown : (storyIds user.ownStories).Nodup)
    (hfresh : story.storyId ∉ storyIds user.favorites)
    (hrec : rec.storyId ∉ storyIds user.ownStories) :
    (storyIds (user.addFavorite story r).2.favorites).Nodup ∧
    (storyIds (user.removeFavorite story r).2.favorites).Nodup ∧
    (storyIds (StoryList.removeStory sl user sid r2).2.2.favorites).Nodup ∧
    (storyIds (StoryList.removeStory sl user sid r2).2.2.ownStories).Nodup ∧
    (storyIds (StoryList.addStory sl user data (Except.ok rec)).2.2.ownStories).Nodup := by
  refine ⟨?_, ?_, ?_, ?_, ?_⟩
  · cases r <;>
      · show (storyIds (user.addFavoriteLocal story).favorites).Nodup
        simp only [User.addFavoriteLocal, storyIds, List.map_append, List.map_cons,
          List.map_nil]
        exact nodup_append_singleton _ _ hfav hfresh
  · cases r <;>
      · show (storyIds (user.removeFavoriteLocal story).favorites).Nodup
        exact storyIds_filter_nodup _ _ hfav
  · cases r2
    · exact hfav
    · exact storyIds_filter_nodup _ _ hfav
  · cases r2
    · exact hown
    · exact storyIds_filter_nodup _ _ hown
  · show (storyIds (Story.ofRecord rec :: user.ownStories)).Nodup
    simp only [storyIds, List.map_cons]
    exact List.nodup_cons.mpr ⟨hrec, hown⟩

/-- Witness for c1_ops_preserve_storyId_nodup at concrete inputs:
sampleStory2 and sampleRecord carry storyIds fresh for sampleUser. -/
theorem c1_ops_preserve_storyId_nodup_witness :
    (storyIds sampleUser.favorites).Nodup ∧
    (storyIds sampleUser.ownStories).Nodup ∧
    sampleStory2.storyId ∉ storyIds sampleUser.favorites ∧
    sampleRecord.storyId ∉ storyIds sampleUser.ownStories ∧
    ((storyIds (sampleUser.addFavorite sampleStory2 (Except.ok ())).2.favorites).Nodup ∧
     (storyIds (sampleUser.removeFavorite sampleStory2 (Except.ok ())).2.favorites).Nodup ∧
     (storyIds (StoryList.removeStory sampleStoryList sampleUser "s9" (Except.error ApiError.network)).2.2.favorites).Nodup ∧
     (storyIds (StoryList.removeStory sampleStoryList sampleUser "s9" (Except.error ApiError.network)).2.2.ownStories).Nodup ∧
     (storyIds (StoryList.addStory sampleStoryList sampleUser sampleData (Except.ok sampleRecord)).2.2.ownStories).Nodup) :=
  ⟨by decide, by decide, by decide, by decide,
   c1_ops_preserve_storyId_nodup sampleStoryList sampleUser sampleStory2
     sampleData sampleRecord "s9" (Except.ok ()) (Except.error ApiError.network)
     (by decide) (by decide) (by decide) (by decide)⟩

/-- C2: when removeStory's delete request succeeds, none of the three
collections — the StoryList's stories, user.ownStories and
user.favorites — retains an entry whose storyId equals the given id. -/
theorem c2_removeStory_purges_all_collections (sl : StoryList) (user : User)
    (storyId : String) (resp : Except ApiError Unit) (h : resp = Except.ok ()) :
    (∀ s ∈ (StoryList.removeStory sl user storyId resp).2.1.stories, s.storyId ≠ storyId) ∧
    (∀ s ∈ (StoryList.removeStory sl user storyId resp).2.2.ownStories, s.storyId ≠ storyId) ∧
    (∀ s ∈ (StoryList.removeStory sl user storyId resp).2.2.favorites, s.storyId ≠ storyId) := by
  subst h
  refine ⟨?_, ?_, ?_⟩ <;>
    · intro s hs
      simp only [StoryList.removeStory, List.mem_filter, bne_iff_ne, ne_eq] at hs
      exact hs.2

/-- Witness for c2_removeStory_purges_all_collections at concrete inputs. -/
theorem c2_removeStory_purges_all_collections_witness :
    ((Except.ok () : Except ApiError Unit) = Except.ok ()) ∧
    ((∀ s ∈ (StoryList.removeStory sampleStoryList sampleUser "s1" (Except.ok ())).2.1.stories, s.storyId ≠ "s1") ∧
     (∀ s ∈ (StoryList.removeStory sampleStoryList sampleUser "s1" (Except.ok ())).2.2.ownStories, s.storyId ≠ "s1") ∧
     (∀ s ∈ (StoryList.removeStory sampleStoryList sampleUser "s1" (Except.ok ())).2.2.favorites, s.storyId ≠ "s1")) :=
  ⟨rfl, c2_removeStory_purges_all_collections sampleStoryList sampleUser "s1"
    (Except.ok ()) rfl⟩

/-- C3: when the create or delete request rejects, addStory and
removeStory return exactly the pre-call StoryList and user alongside the
propagated error — no partial local mutation. -/
theorem c3_failure_leaves_collections_unchanged (sl : StoryList) (user : User)
    (data : NewStoryData) (storyId : String) (e : ApiError) :
    StoryList.addStory sl user data (Except.error e) = (Except.error e, sl, user) ∧
    StoryList.removeStory sl user storyId (Except.error e) = (Except.error e, sl, user) :=
  ⟨rfl, rfl⟩

/-- C4: when the create request succeeds with record rec, addStory
returns the Story built from rec, prepends it to the StoryList's stories
and to user.ownStories with all prior elements following in order, and
leaves user.favorites untouched. -/
theorem c4_addStory_prepends_new_story (sl : StoryList) (user : User)
    (data : NewStoryData) (rec : StoryRecord) :
    (StoryList.addStory sl user data (Except.ok rec)).1 = Except.ok (Story.ofRecord rec) ∧
    (StoryList.addStory sl user data (Except.ok rec)).2.1.stories
      = Story.ofRecord rec :: sl.stories ∧
    (StoryList.addStory sl user data (Except.ok rec)).2.2.ownStories
      = Story.ofRecord rec :: user.ownStories ∧
    (StoryList.addStory sl user data (Except.ok rec)).2.2.favorites = user.favorites :=
  ⟨rfl, rfl, rfl, rfl⟩

/-- C5: the favorite operations mutate favorites locally independently of
the server response — the post-state user equals the local mutation for
every response, addFavorite's mutation appends the story, removeFavorite's
mutation leaves no entry with the story's storyId while keeping every
other entry — and on a rejected request the error is returned while the
optimistic mutation stands (no rollback). -/
theorem c5_favorites_optimistic_no_rollback (user : User) (story : Story)
    (e : ApiError) (resp : Except ApiError Unit) :
    (User.addFavorite user story resp).2 = user.addFavoriteLocal story ∧
    (User.removeFavorite user story resp).2 = user.removeFavoriteLocal story ∧
    (user.addFavoriteLocal story).favorites = user.favorites ++ [story] ∧
    (∀ s ∈ (user.removeFavoriteLocal story).favorites, s.storyId ≠ story.storyId) ∧
    (∀ s ∈ user.favorites, s.storyId ≠ story.storyId →
      s ∈ (user.removeFavoriteLocal story).favorites) ∧
    (User.addFavorite user story (Except.error e)).1 = Except.error e ∧
    (User.addFavorite user story (Except.error e)).2 = user.addFavoriteLocal story ∧
    (User.removeFavorite user story (Except.error e)).1 = Except.error e ∧
    (User.removeFavorite user story (Except.error e)).2 = user.removeFavoriteLocal story := by
  refine ⟨?_, ?_, rfl, ?_, ?_, rfl, rfl, rfl, rfl⟩
  · cases resp <;> rfl
  · cases resp <;> rfl
  · intro s hs
    simp only [User.removeFavoriteLocal, List.mem_filter, bne_iff_ne, ne_eq] at hs
    exact hs.2
  · intro s hs hne
    simp only [User.removeFavoriteLocal, List.mem_filter, bne_iff_ne, ne_eq]
    exact ⟨hs, hne⟩

/-- C6: loginViaStoredCredentials is total — it returns none on every
rejected profile fetch and, on success, some User rebuilt from the
fetched profile that carries exactly the token passed in; no error
escapes. -/
theorem c6_loginViaStoredCredentials_never_throws (token username : String)
    (e : ApiError) (u : UserRecordWire) :
    User.loginViaStoredCredentials token username (Except.error e) = none ∧
    ∃ usr, User.loginViaStoredCredentials token username (Except.ok u) = some usr ∧
      usr.loginToken = token ∧
      usr.username = u.username ∧
      usr.favorites = u.favorites.map Story.ofRecord ∧
      usr.ownStories = u.stories.map Story.ofRecord :=
  ⟨rfl, _, rfl, rfl, rfl, rfl, rfl⟩

/-- C7: getHostName is a function of the story's url alone; whenever the
url parses as a valid absolute URL it returns the host component, and
whenever it does not it returns the propagating MalformedUrlError. -/
theorem c7_getHostName_pure_host_or_error (s t : Story) (h : s.url = t.url) :
    s.getHostName = t.getHostName ∧
    (∀ host, parseUrlHost s.url = some host → s.getHostName = Except.ok host) ∧
    (parseUrlHost s.url = none → s.getHostName = Except.error UrlError.malformedUrl) := by
  refine ⟨?_, ?_, ?_⟩
  · simp only [Story.getHostName, h]
  · intro host hh
    simp only [Story.getHostName, hh]
  · intro hh
    simp only [Story.getHostName, hh]

/-- Witness for c7_getHostName_pure_host_or_error: two stories sharing
the url "https://example.com/a", whose host parses to "example.com". -/
theorem c7_getHostName_pure_host_or_error_witness :
    (sampleStory.url = sampleStory.url) ∧
    (sampleStory.getHostName = sampleStory.getHostName ∧
     (∀ host, parseUrlHost sampleStory.url = some host →
        sampleStory.getHostName = Except.ok host) ∧
     (parseUrlHost sampleStory.url = none →
        sampleStory.getHostName = Except.error UrlError.malformedUrl)) :=
  ⟨rfl, c7_getHostName_pure_host_or_error sampleStory sampleStory rfl⟩

/-- C8: isFavorite returns true exactly when some entry of favorites
carries the story's storyId, as a pure boolean of the user's favorites. -/
theorem c8_isFavorite_matches_favorites (user : User) (story : Story) :
    user.isFavorite story = true ↔
      ∃ f ∈ user.favorites, f.storyId = story.storyId := by
  simp only [User.isFavorite, List.any_eq_true, beq_iff_eq]

/-- C9: addFavorite's local mutation followed by removeFavorite's local
mutation on the same story leaves favorites with no entry carrying that
storyId, whatever the two network responses are — the last local mutation
wins independently of response order. -/
theorem c9_add_then_remove_leaves_no_entry (user : User) (story : Story)
    (r1 r2 : Except ApiError Unit) (h : story ∉ user.favorites) :
    ∀ s ∈ (User.removeFavorite (user.addFavorite story r1).2 story r2).2.favorites,
      s.storyId ≠ story.storyId := by
  intro s hs
  cases r1 <;> cases r2 <;>
    · simp only [User.addFavorite, User.removeFavorite, User.addFavoriteLocal,
        User.removeFavoriteLocal, List.mem_filter, bne_iff_ne, ne_eq] at hs
      exact hs.2

/-- Witness for c9_add_then_remove_leaves_no_entry: sampleStory2 is not
among sampleUser's favorites, and add-then-remove (with one success and
one rejection as the responses) leaves no favorite with its storyId. -/
theorem c9_add_then_remove_leaves_no_entry_witness :
    (sampleStory2 ∉ sampleUser.favorites) ∧
    (∀ s ∈ (User.removeFavorite
        (sampleUser.addFavorite sampleStory2 (Except.ok ())).2 sampleStory2
        (Except.error ApiError.network)).2.favorites,
      s.storyId ≠ sampleStory2.storyId) :=
  ⟨by decide, c9_add_then_remove_leaves_no_entry sampleUser sampleStory2
    (Except.ok ()) (Except.error ApiError.network) (by decide)⟩

/-- C10: the User constructor defaults an absent favorites or ownStories
to the empty collection, wraps present element records as Story instances
verbatim, copies the identity fields, and stores the token argument as
loginToken; the Story constructor exposes all six record fields
verbatim. -/
theorem c10_user_constructor_defaults_and_wraps (d : UserData)
    (l fl : List StoryRecord) (token : String) (rec : StoryRecord) :
    (User.ofData { d with favorites := none, ownStories := none } token).favorites = [] ∧
    (User.ofData { d with favorites := none, ownStories := none } token).ownStories = [] ∧
    (User.ofData { d with favorites := some fl } token).favorites
      = fl.map Story.ofRecord ∧
    (User.ofData { d with ownStories := some l } token).ownStories
      = l.map Story.ofRecord ∧
    (User.ofData d token).loginToken = token ∧
    (User.ofData d token).username = d.username ∧
    (User.ofData d token).name = d.name ∧
    (User.ofData d token).createdAt = d.createdAt ∧
    Story.ofRecord rec
      = { storyId := rec.storyId, title := rec.title, author := rec.author,
          url := rec.url, username := rec.username, createdAt := rec.createdAt } :=
  ⟨rfl, rfl, rfl, rfl, rfl, rfl, rfl, rfl, rfl⟩

end HackOrSnooze
